import Mathlib

/-!
# Verification of the rcl logging fan-out and rosout publication bridge

Shallow embedding of `src/rcl/src/rcl/logging_rosout.c` (the rosout publisher
registry and its output handler) and of the sink-dispatcher functions
`rcl_logging_configure` / `rcl_logging_fini` /
`rcl_logging_multiple_output_handler` from the same source excerpt.

External collaborators (the pub/sub transport, the hash-map library's
fallible allocation, the wire message type, the external logging library)
are modelled by explicit result parameters; the side effects the C code
performs on them are recorded in an explicit event trace so that facts such
as "exactly one publish call" or "the external teardown was attempted" are
statable.  A null C pointer is modelled as `Option.none`; a dereference of a
null pointer is a fault, modelled by an `Option.none` result of the whole
handler.
-/

namespace RclLogging

/-- Return codes used by the source (`rcl_ret_t` / `rcutils_ret_t` values). -/
inductive rcl_ret_t where
  | RCL_RET_OK
  | RCL_RET_ERROR
  | RCL_RET_INVALID_ARGUMENT
  | RCL_RET_BAD_ALLOC
  | RCL_RET_ALREADY_INIT
  | RCL_RET_NOT_INIT
  deriving DecidableEq, Repr

open rcl_ret_t

/-- A node handle: the registry only reads its identity and its logger name
(`rcl_node_get_logger_name`, which may return NULL, hence `Option`). -/
structure rcl_node_t where
  node_id : Nat
  logger_name : Option String
  deriving DecidableEq, Repr

/-- An opaque publisher handle created by the transport. -/
structure rcl_publisher_t where
  pub_id : Nat
  deriving DecidableEq, Repr

/-- `rosout_map_entry_t`: the {node, publisher} pair stored per logger name. -/
structure rosout_map_entry_t where
  node : rcl_node_t
  publisher : rcl_publisher_t
  deriving DecidableEq, Repr

/-- `rcutils_log_location_t`: the source-location struct a record may carry. -/
structure rcutils_log_location_t where
  function_name : String
  file_name : String
  line_number : Nat
  deriving DecidableEq, Repr

/-- The hash map keyed by logger-name strings, modelled as an association
list (at most one binding per key in every reachable state). -/
abbrev LoggerMap := List (String × rosout_map_entry_t)

/-- `rcutils_hash_map_key_exists`. -/
def rcutils_hash_map_key_exists (m : LoggerMap) (k : String) : Bool :=
  (m.lookup k).isSome

/-- `rcutils_hash_map_get` (as a pure lookup). -/
def rcutils_hash_map_get (m : LoggerMap) (k : String) : Option rosout_map_entry_t :=
  m.lookup k

/-- The map update performed by a successful `rcutils_hash_map_set`:
replace the binding if the key is present, append it otherwise. -/
def rcutils_hash_map_set_list (m : LoggerMap) (k : String) (v : rosout_map_entry_t) :
    LoggerMap :=
  if (m.lookup k).isSome then
    m.map (fun p => if p.1 = k then (k, v) else p)
  else
    m ++ [(k, v)]

/-- The map update performed by `rcutils_hash_map_unset`: drop the key. -/
def rcutils_hash_map_unset_list (m : LoggerMap) (k : String) : LoggerMap :=
  m.filter (fun p => p.1 ≠ k)

/-- The fields of the wire message `rcl_interfaces__msg__Log` that the
output handler assigns before publishing. -/
structure LogMsg where
  stamp_sec : Int
  stamp_nanosec : Int
  level : Int
  line : Nat
  name : String
  msg : String
  file : String
  function : String
  deriving DecidableEq, Repr

/-- Which handler is stored in a slot of `g_rcl_logging_out_handlers`. -/
inductive OutputHandlerKind where
  | console
  | rosoutHandler
  | extLib
  deriving DecidableEq, Repr

/-- Which function is installed as the global rcutils output handler. -/
inductive GlobalHandler where
  | consoleOnly
  | multiple
  deriving DecidableEq, Repr

/-- Observable side effects on the external collaborators, recorded in the
order the C code performs them. -/
inductive Event where
  | mapInit
  | mapFini
  | mapSet (key : String)
  | mapUnset (key : String)
  | pubInit (node_id : Nat)
  | pubFini (pub_id : Nat)
  | msgCreate
  | publish (pub_id : Nat) (msg : LogMsg)
  | msgDestroy
  | extInitialize
  | extSetLevel (level : Int)
  | extShutdown
  | setOutputHandler (h : GlobalHandler)
  | setDefaultLevel (level : Int)
  | rosoutFiniCall
  deriving DecidableEq, Repr

/-- The static state of logging_rosout.c: `__logger_map`, `__is_initialized`,
`__rosout_allocator` (the allocator is identified by a number; `none` means
it was never recorded). -/
structure RosoutState where
  logger_map : LoggerMap
  is_initialized : Bool
  rosout_allocator : Option Nat
  deriving DecidableEq, Repr

/-- Outcomes of the external calls `rcl_logging_rosout_init_publisher_for_node`
makes: publisher creation, map insertion, and the cleanup teardown. -/
structure PubEnv where
  publisher_init_ret : rcl_ret_t
  new_publisher : rcl_publisher_t
  hash_map_set_ret : rcl_ret_t
  publisher_fini_ret : rcl_ret_t
  deriving DecidableEq, Repr

/-- `rcl_logging_rosout_init`.  `allocator = none` models a NULL allocator
pointer; `map_init_ret` is the outcome of `rcutils_hash_map_init`. -/
def rcl_logging_rosout_init (st : RosoutState) (allocator : Option Nat)
    (map_init_ret : rcl_ret_t) : rcl_ret_t × RosoutState × List Event :=
  match allocator with
  | none => (RCL_RET_INVALID_ARGUMENT, st, [])
  | some alloc =>
    if st.is_initialized then
      (RCL_RET_OK, st, [])
    else
      -- __logger_map = rcutils_get_zero_initialized_hash_map(); then
      -- rcutils_hash_map_init(&__logger_map, ...)
      if map_init_ret = RCL_RET_OK then
        (RCL_RET_OK,
         { logger_map := [], is_initialized := true, rosout_allocator := some alloc },
         [Event.mapInit])
      else
        (map_init_ret, { st with logger_map := [] }, [Event.mapInit])

/-- The entry-teardown loop of `rcl_logging_rosout_fini`: fini each stored
publisher in iteration order, stopping at the first failure.  The map itself
is not modified by this loop. -/
def finiEntriesList (pub_fini_ret : Nat → rcl_ret_t) :
    LoggerMap → rcl_ret_t × List Event
  | [] => (RCL_RET_OK, [])
  | (_, e) :: rest =>
    let r := pub_fini_ret e.publisher.pub_id
    if r = RCL_RET_OK then
      let tail := finiEntriesList pub_fini_ret rest
      (tail.1, Event.pubFini e.publisher.pub_id :: tail.2)
    else
      (r, [Event.pubFini e.publisher.pub_id])

/-- `rcl_logging_rosout_fini`.  `pub_fini_ret` gives the outcome of
`rcl_publisher_fini` per publisher handle, `map_fini_ret` the outcome of
`rcutils_hash_map_fini`. -/
def rcl_logging_rosout_fini (st : RosoutState) (pub_fini_ret : Nat → rcl_ret_t)
    (map_fini_ret : rcl_ret_t) : rcl_ret_t × RosoutState × List Event :=
  if st.is_initialized then
    let loop := finiEntriesList pub_fini_ret st.logger_map
    if loop.1 = RCL_RET_OK then
      if map_fini_ret = RCL_RET_OK then
        (RCL_RET_OK,
         { st with logger_map := [], is_initialized := false },
         loop.2 ++ [Event.mapFini])
      else
        (map_fini_ret, st, loop.2 ++ [Event.mapFini])
    else
      (loop.1, st, loop.2)
  else
    -- RCL_LOGGING_ROSOUT_VERIFY_INITIALIZED: silently succeed
    (RCL_RET_OK, st, [])

/-- `rcl_logging_rosout_init_publisher_for_node`.  `node = none` models a
NULL node pointer. -/
def rcl_logging_rosout_init_publisher_for_node (st : RosoutState)
    (node : Option rcl_node_t) (env : PubEnv) :
    rcl_ret_t × RosoutState × List Event :=
  if st.is_initialized then
    match node with
    | none => (RCL_RET_INVALID_ARGUMENT, st, [])
    | some n =>
      match n.logger_name with
      | none => (RCL_RET_ERROR, st, [])
      | some logger_name =>
        if rcutils_hash_map_key_exists st.logger_map logger_name then
          (RCL_RET_ALREADY_INIT, st, [])
        else
          -- rcl_publisher_init(&new_entry.publisher, node, ..., "rosout", ...)
          if env.publisher_init_ret = RCL_RET_OK then
            if env.hash_map_set_ret = RCL_RET_OK then
              (RCL_RET_OK,
               { st with logger_map := (rcutils_hash_map_set_list
                  st.logger_map logger_name ⟨n, env.new_publisher⟩) },
               [Event.pubInit n.node_id, Event.mapSet logger_name])
            else
              -- set failed: destroy the publisher we created and ignore the
              -- teardown status in favor of the failure from set
              (env.hash_map_set_ret, st,
               [Event.pubInit n.node_id, Event.mapSet logger_name,
                Event.pubFini env.new_publisher.pub_id])
          else
            (env.publisher_init_ret, st, [Event.pubInit n.node_id])
  else
    (RCL_RET_OK, st, [])

/-- `rcl_logging_rosout_fini_publisher_for_node`. -/
def rcl_logging_rosout_fini_publisher_for_node (st : RosoutState)
    (node : Option rcl_node_t) (pub_fini_ret : Nat → rcl_ret_t) :
    rcl_ret_t × RosoutState × List Event :=
  if st.is_initialized then
    match node with
    | none => (RCL_RET_INVALID_ARGUMENT, st, [])
    | some n =>
      match n.logger_name with
      | none => (RCL_RET_ERROR, st, [])
      | some logger_name =>
        if rcutils_hash_map_key_exists st.logger_map logger_name then
          match rcutils_hash_map_get st.logger_map logger_name with
          | none => (RCL_RET_ERROR, st, [])
          | some entry =>
            let r := pub_fini_ret entry.publisher.pub_id
            if r = RCL_RET_OK then
              (RCL_RET_OK,
               { st with logger_map :=
                  rcutils_hash_map_unset_list st.logger_map logger_name },
               [Event.pubFini entry.publisher.pub_id, Event.mapUnset logger_name])
            else
              (r, st, [Event.pubFini entry.publisher.pub_id])
        else
          (RCL_RET_NOT_INIT, st, [])
  else
    (RCL_RET_OK, st, [])

/-- `rcl_logging_rosout_output_handler`.  The result is the trace of side
effects; `none` models a fault (the C code dereferences the `location`
pointer unconditionally at `log_message->line = location->line_number`,
which is a null-pointer dereference when `location` is absent).
`msg_create_ok` is the outcome of `rcl_interfaces__msg__Log__create`;
`publish_ret` is the outcome of `rcl_publish`. -/
def rcl_logging_rosout_output_handler (st : RosoutState)
    (location : Option rcutils_log_location_t) (severity : Int) (name : String)
    (timestamp : Int) (log_str : String) (msg_create_ok : Bool)
    (publish_ret : rcl_ret_t) : Option (List Event) :=
  if st.is_initialized then
    match rcutils_hash_map_get st.logger_map name with
    | none => some []
    | some entry =>
      if msg_create_ok then
        match location with
        | none => none
        | some loc =>
          let m : LogMsg :=
            { stamp_sec := timestamp.tdiv 1000000000
              stamp_nanosec := timestamp.tmod 1000000000
              level := severity
              line := loc.line_number
              name := name
              msg := log_str
              file := loc.file_name
              function := loc.function_name }
          -- rcl_publish, then rcl_interfaces__msg__Log__destroy on every path
          let _ := publish_ret
          some [Event.msgCreate, Event.publish entry.publisher.pub_id m,
                Event.msgDestroy]
      else
        some []
  else
    some []

/-- The static state of the dispatcher: `g_rcl_logging_out_handlers` (a
fixed array whose stale slots beyond the count are never cleared),
`g_rcl_logging_num_out_handlers`, and the three enablement flags. -/
structure LoggingState where
  out_handlers : Nat → Option OutputHandlerKind
  num_out_handlers : Nat
  stdout_enabled : Bool
  rosout_enabled : Bool
  ext_lib_enabled : Bool

/-- The combined process-wide state the two components share, plus the
globally installed rcutils output handler. -/
structure GlobalState where
  logging : LoggingState
  rosout : RosoutState
  global_handler : GlobalHandler

/-- The fields of `rcl_arguments_t.impl` read by `rcl_logging_configure`. -/
structure rcl_arguments_t where
  log_level : Int
  external_log_config_file : Option String
  log_stdout_disabled : Bool
  log_rosout_disabled : Bool
  log_ext_lib_disabled : Bool
  deriving DecidableEq, Repr

/-- `g_rcl_logging_out_handlers[g_rcl_logging_num_out_handlers++] = h`. -/
def appendHandler (ls : LoggingState) (h : OutputHandlerKind) : LoggingState :=
  { ls with
    out_handlers := fun i =>
      if i = ls.num_out_handlers then some h else ls.out_handlers i
    num_out_handlers := ls.num_out_handlers + 1 }

/-- `rcl_logging_configure`.  `allocator` is the allocator pointer passed
through to `rcl_logging_rosout_init`; `map_init_ret` the hash-map creation
outcome inside it; `ext_init_ret` the outcome of
`rcl_logging_external_initialize`. -/
def rcl_logging_configure (g : GlobalState) (args : rcl_arguments_t)
    (allocator : Option Nat) (map_init_ret ext_init_ret : rcl_ret_t) :
    rcl_ret_t × GlobalState × List Event :=
  let default_level := args.log_level
  let ls0 : LoggingState :=
    { out_handlers := g.logging.out_handlers
      num_out_handlers := 0
      stdout_enabled := !args.log_stdout_disabled
      rosout_enabled := !args.log_rosout_disabled
      ext_lib_enabled := !args.log_ext_lib_disabled }
  let evs0 := if 0 ≤ default_level then [Event.setDefaultLevel default_level] else []
  let ls1 := if ls0.stdout_enabled then appendHandler ls0 OutputHandlerKind.console else ls0
  let rosoutStep :=
    if ls1.rosout_enabled then
      rcl_logging_rosout_init g.rosout allocator map_init_ret
    else
      (RCL_RET_OK, g.rosout, [])
  let ls2 :=
    if ls1.rosout_enabled ∧ rosoutStep.1 = RCL_RET_OK then
      appendHandler ls1 OutputHandlerKind.rosoutHandler
    else ls1
  let extStep :=
    if ls2.ext_lib_enabled then
      if ext_init_ret = RCL_RET_OK then
        (ext_init_ret, appendHandler ls2 OutputHandlerKind.extLib,
         [Event.extInitialize, Event.extSetLevel default_level])
      else
        (ext_init_ret, ls2, [Event.extInitialize])
    else
      (rosoutStep.1, ls2, [])
  (extStep.1,
   { logging := extStep.2.1, rosout := rosoutStep.2.1,
     global_handler := GlobalHandler.multiple },
   evs0 ++ rosoutStep.2.2 ++ extStep.2.2 ++ [Event.setOutputHandler GlobalHandler.multiple])

/-- `rcl_logging_fini`: reinstall the console handler, then fini rosout if it
was enabled, then shut the external lib down — but only if the status so far
is OK. -/
def rcl_logging_fini (g : GlobalState) (pub_fini_ret : Nat → rcl_ret_t)
    (map_fini_ret ext_shutdown_ret : rcl_ret_t) :
    rcl_ret_t × GlobalState × List Event :=
  let rosoutStep :=
    if g.logging.rosout_enabled then
      let s := rcl_logging_rosout_fini g.rosout pub_fini_ret map_fini_ret
      (s.1, s.2.1, Event.rosoutFiniCall :: s.2.2)
    else
      (RCL_RET_OK, g.rosout, [])
  let extStep :=
    if rosoutStep.1 = RCL_RET_OK ∧ g.logging.ext_lib_enabled then
      (ext_shutdown_ret, [Event.extShutdown])
    else
      (rosoutStep.1, ([] : List Event))
  (extStep.1,
   { g with rosout := rosoutStep.2.1, global_handler := GlobalHandler.consoleOnly },
   Event.setOutputHandler GlobalHandler.consoleOnly :: rosoutStep.2.2 ++ extStep.2)

/-- The iteration of `rcl_logging_multiple_output_handler`: visit slots from
`i` while `i < num` and the slot is non-NULL, collecting the handlers that
get invoked, in order.  `fuel` is the number of slots still below `num`,
i.e. `num - i`, so the loop condition `i < num` is `0 < fuel`. -/
def handlersInvokedAux (f : Nat → Option OutputHandlerKind) :
    Nat → Nat → List OutputHandlerKind
  | _, 0 => []
  | i, fuel + 1 =>
    match f i with
    | none => []
    | some k => k :: handlersInvokedAux f (i + 1) fuel

/-- `rcl_logging_multiple_output_handler` as the list of handlers it invokes
on a record, in invocation order. -/
def rcl_logging_multiple_output_handler (ls : LoggingState) : List OutputHandlerKind :=
  handlersInvokedAux ls.out_handlers 0 ls.num_out_handlers

/-- The handler list a configure call produces, as a function of the call's
own arguments and subsystem-initialization outcomes only (used to state the
configure theorems). -/
def expectedHandlers (args : rcl_arguments_t) (rosout_status ext_status : rcl_ret_t) :
    List OutputHandlerKind :=
  (if args.log_stdout_disabled = false then [OutputHandlerKind.console] else []) ++
  (if args.log_rosout_disabled = false ∧ rosout_status = RCL_RET_OK then
    [OutputHandlerKind.rosoutHandler] else []) ++
  (if args.log_ext_lib_disabled = false ∧ ext_status = RCL_RET_OK then
    [OutputHandlerKind.extLib] else [])

/-! ## Sample states used to instantiate the theorems -/

/-- An initialized registry with an empty map. -/
def sampleInitState : RosoutState :=
  { logger_map := [], is_initialized := true, rosout_allocator := some 3 }

/-- An uninitialized registry. -/
def sampleUninitState : RosoutState :=
  { logger_map := [], is_initialized := false, rosout_allocator := none }

/-- A node whose logger name is "nav". -/
def sampleNode : rcl_node_t := { node_id := 1, logger_name := some "nav" }

/-- External-call outcomes where everything succeeds; the transport hands
out publisher handle 7. -/
def sampleEnv : PubEnv :=
  { publisher_init_ret := RCL_RET_OK, new_publisher := ⟨7⟩,
    hash_map_set_ret := RCL_RET_OK, publisher_fini_ret := RCL_RET_OK }

/-- A present source location. -/
def sampleLoc : rcutils_log_location_t :=
  { function_name := "on_timer", file_name := "nav_node.c", line_number := 42 }

/-- An initialized registry already holding an entry for "nav" with
publisher handle 7. -/
def sampleRegistered : RosoutState :=
  { logger_map := [("nav", ⟨sampleNode, ⟨7⟩⟩)], is_initialized := true,
    rosout_allocator := some 3 }

/-- A dispatcher state in which the last configure enabled all three sinks,
over the registry state `sampleRegistered`. -/
def sampleBothEnabled : GlobalState :=
  { logging :=
      { out_handlers := fun _ => none
        num_out_handlers := 0
        stdout_enabled := true
        rosout_enabled := true
        ext_lib_enabled := true }
    rosout := sampleRegistered
    global_handler := GlobalHandler.multiple }

/-- The process state before any configure call. -/
def sampleFreshGlobal : GlobalState :=
  { logging :=
      { out_handlers := fun _ => none
        num_out_handlers := 0
        stdout_enabled := false
        rosout_enabled := false
        ext_lib_enabled := false }
    rosout := sampleUninitState
    global_handler := GlobalHandler.consoleOnly }

/-- Arguments enabling all three sinks with default level 10. -/
def sampleArgsAllOn : rcl_arguments_t :=
  { log_level := 10, external_log_config_file := none,
    log_stdout_disabled := false, log_rosout_disabled := false,
    log_ext_lib_disabled := false }

/-! ## Helper lemmas -/

theorem lookup_append_single (m : LoggerMap) (k : String) (v : rosout_map_entry_t)
    (h : m.lookup k = none) : (m ++ [(k, v)]).lookup k = some v := by
  induction m with
  | nil => simp [List.lookup]
  | cons p rest ih =>
    rcases p with ⟨a, b⟩
    by_cases hk : (k == a) = true
    · simp [List.lookup, hk] at h
    · rw [Bool.not_eq_true] at hk
      simp only [List.lookup, hk] at h
      simpa [List.cons_append, List.lookup, hk] using ih h

theorem countP_eq_zero_of_lookup_none (m : LoggerMap) (k : String)
    (h : m.lookup k = none) : m.countP (fun p => p.1 == k) = 0 := by
  induction m with
  | nil => simp
  | cons p rest ih =>
    rcases p with ⟨a, b⟩
    by_cases hk : (k == a) = true
    · simp [List.lookup, hk] at h
    · rw [Bool.not_eq_true] at hk
      simp only [List.lookup, hk] at h
      have ha : (a == k) = false := by
        simp only [beq_eq_false_iff_ne] at hk ⊢
        exact fun hya => hk hya.symm
      simp [List.countP_cons, ha, ih h]

theorem lookup_unset_eq_none (m : LoggerMap) (k : String) :
    (rcutils_hash_map_unset_list m k).lookup k = none := by
  induction m with
  | nil => simp [rcutils_hash_map_unset_list]
  | cons p rest ih =>
    rcases p with ⟨a, b⟩
    by_cases ha : a = k
    · simpa [rcutils_hash_map_unset_list, List.filter, ha] using ih
    · have hk : ¬((k == a) = true) := by
        simp only [beq_iff_eq]
        exact fun hh => ha (hh ▸ rfl)
      rw [Bool.not_eq_true] at hk
      simpa [rcutils_hash_map_unset_list, List.filter, ha, List.lookup, hk] using ih

theorem extShutdown_not_mem_finiEntriesList (pf : Nat → rcl_ret_t) (l : LoggerMap) :
    Event.extShutdown ∉ (finiEntriesList pf l).2 := by
  induction l with
  | nil => simp [finiEntriesList]
  | cons p rest ih =>
    rcases p with ⟨a, e⟩
    by_cases hr : pf e.publisher.pub_id = RCL_RET_OK
    · simp [finiEntriesList, hr]
      exact fun hc => absurd hc ih
    · simp [finiEntriesList, hr]

theorem extShutdown_not_mem_rosout_fini (st : RosoutState) (pf : Nat → rcl_ret_t)
    (mf : rcl_ret_t) : Event.extShutdown ∉ (rcl_logging_rosout_fini st pf mf).2.2 := by
  by_cases hi : st.is_initialized
  · by_cases hl : (finiEntriesList pf st.logger_map).1 = RCL_RET_OK
    · by_cases hm : mf = RCL_RET_OK <;>
        simp [rcl_logging_rosout_fini, hi, hl, hm,
          extShutdown_not_mem_finiEntriesList pf st.logger_map]
    · simp [rcl_logging_rosout_fini, hi, hl,
        extShutdown_not_mem_finiEntriesList pf st.logger_map]
  · simp [rcl_logging_rosout_fini, hi]

/-- Inversion of the success path of `rcl_logging_rosout_init_publisher_for_node`:
on an initialized registry, a success means the logger name was free, both
external steps succeeded, and the new entry was appended to the map. -/
theorem register_ok_inversion (st : RosoutState) (n : rcl_node_t) (L : String)
    (env : PubEnv) (hinit : st.is_initialized = true) (hname : n.logger_name = some L)
    (hreg : (rcl_logging_rosout_init_publisher_for_node st (some n) env).1 = RCL_RET_OK) :
    st.logger_map.lookup L = none ∧
    env.publisher_init_ret = RCL_RET_OK ∧
    env.hash_map_set_ret = RCL_RET_OK ∧
    (rcl_logging_rosout_init_publisher_for_node st (some n) env).2.1 =
      { st with logger_map := st.logger_map ++ [(L, ⟨n, env.new_publisher⟩)] } := by
  by_cases hk : rcutils_hash_map_key_exists st.logger_map L = true
  · simp [rcl_logging_rosout_init_publisher_for_node, hinit, hname, hk] at hreg
  · rw [Bool.not_eq_true] at hk
    have hlook : st.logger_map.lookup L = none := by
      have := hk
      unfold rcutils_hash_map_key_exists at this
      exact Option.not_isSome_iff_eq_none.mp (by simp [this])
    by_cases hp : env.publisher_init_ret = RCL_RET_OK
    · by_cases hs : env.hash_map_set_ret = RCL_RET_OK
      · refine ⟨hlook, hp, hs, ?_⟩
        simp [rcl_logging_rosout_init_publisher_for_node, hinit, hname, hk, hp, hs,
          rcutils_hash_map_set_list, hlook]
      · simp [rcl_logging_rosout_init_publisher_for_node, hinit, hname, hk, hp, hs] at hreg
    · simp [rcl_logging_rosout_init_publisher_for_node, hinit, hname, hk, hp] at hreg

theorem handlersInvokedAux_zero (f : Nat → Option OutputHandlerKind) (i : Nat) :
    handlersInvokedAux f i 0 = [] := rfl

theorem handlersInvokedAux_succ (f : Nat → Option OutputHandlerKind) (i fuel : Nat) :
    handlersInvokedAux f i (fuel + 1) =
      match f i with
      | none => []
      | some k => k :: handlersInvokedAux f (i + 1) fuel := rfl

/-- Full characterization of one `rcl_logging_configure` call: the handlers
the dispatch loop will invoke, their count, and the returned status, all as
functions of this call's arguments and subsystem outcomes. -/
theorem configure_characterization (g : GlobalState) (args : rcl_arguments_t)
    (allocator : Option Nat) (map_init_ret ext_init_ret : rcl_ret_t) :
    rcl_logging_multiple_output_handler
        (rcl_logging_configure g args allocator map_init_ret ext_init_ret).2.1.logging =
      expectedHandlers args (rcl_logging_rosout_init g.rosout allocator map_init_ret).1
        ext_init_ret ∧
    (rcl_logging_configure g args allocator map_init_ret ext_init_ret).2.1.logging.num_out_handlers =
      (expectedHandlers args (rcl_logging_rosout_init g.rosout allocator map_init_ret).1
        ext_init_ret).length ∧
    (rcl_logging_configure g args allocator map_init_ret ext_init_ret).1 =
      (if args.log_ext_lib_disabled = false then ext_init_ret
       else if args.log_rosout_disabled = false then
         (rcl_logging_rosout_init g.rosout allocator map_init_ret).1
       else RCL_RET_OK) := by
  obtain ⟨lvl, cfg, sdis, rdis, xdis⟩ := args
  rcases hstep : rcl_logging_rosout_init g.rosout allocator map_init_ret with ⟨r, st', evs⟩
  cases sdis <;> cases rdis <;> cases xdis <;>
    by_cases hro : r = RCL_RET_OK <;>
    by_cases hx : ext_init_ret = RCL_RET_OK <;>
      simp [rcl_logging_configure, appendHandler, rcl_logging_multiple_output_handler,
        handlersInvokedAux_succ, handlersInvokedAux_zero, expectedHandlers, hstep, hro, hx]

/-! ## Claim theorems -/

/-- C1: after a successful registration for logger name `L`, dispatching a
record carrying `L` (with its source location present and the wire-message
allocation succeeding) performs exactly one publish, on the publisher handle
the registration stored, with `stamp.sec = timestampNanos / 10^9`
(truncating), `stamp.nanosec = timestampNanos mod 10^9`, `level` the
record's severity, and the name/msg/file/function strings copied from the
record; the wire message is destroyed regardless of the publish outcome
(`publish_ret` is universally quantified and does not affect the trace). -/
theorem register_then_dispatch_round_trip (st : RosoutState) (n : rcl_node_t)
    (L : String) (env : PubEnv) (loc : rcutils_log_location_t)
    (severity timestamp : Int) (log_str : String) (publish_ret : rcl_ret_t)
    (hinit : st.is_initialized = true) (hname : n.logger_name = some L)
    (hreg : (rcl_logging_rosout_init_publisher_for_node st (some n) env).1 = RCL_RET_OK) :
    rcl_logging_rosout_output_handler
        (rcl_logging_rosout_init_publisher_for_node st (some n) env).2.1
        (some loc) severity L timestamp log_str true publish_ret =
      some [Event.msgCreate,
            Event.publish env.new_publisher.pub_id
              { stamp_sec := timestamp.tdiv 1000000000
                stamp_nanosec := timestamp.tmod 1000000000
                level := severity
                line := loc.line_number
                name := L
                msg := log_str
                file := loc.file_name
                function := loc.function_name },
            Event.msgDestroy] := by
  obtain ⟨hlook, hp, hs, hst⟩ := register_ok_inversion st n L env hinit hname hreg
  rw [hst]
  simp [rcl_logging_rosout_output_handler, hinit, rcutils_hash_map_get,
    lookup_append_single _ _ _ hlook]

/-- Witness for C1 at the spec's own scenario: logger "nav", severity 20,
message "obstacle detected", timestamp 1700000000123456789 ns. -/
theorem register_then_dispatch_round_trip_witness :
    rcl_logging_rosout_output_handler
        (rcl_logging_rosout_init_publisher_for_node sampleInitState
          (some sampleNode) sampleEnv).2.1
        (some sampleLoc) 20 "nav" 1700000000123456789 "obstacle detected" true
        RCL_RET_ERROR =
      some [Event.msgCreate,
            Event.publish 7
              { stamp_sec := 1700000000
                stamp_nanosec := 123456789
                level := 20
                line := 42
                name := "nav"
                msg := "obstacle detected"
                file := "nav_node.c"
                function := "on_timer" },
            Event.msgDestroy] :=
  register_then_dispatch_round_trip sampleInitState sampleNode "nav" sampleEnv
    sampleLoc 20 1700000000123456789 "obstacle detected" RCL_RET_ERROR
    rfl rfl (by decide)

/-- C3: the claim says a record with an absent source location is still
published without faulting, and the handler's own header documents the
location pointer as possibly NULL; but the code assigns
`log_message->line = location->line_number` (and reads `file_name` and
`function_name`) without any null check, so with a registered entry for the
record's logger the handler dereferences the null pointer — a fault,
modelled as `none` — instead of publishing. -/
theorem null_location_dereference_faults :
    rcl_logging_rosout_output_handler sampleRegistered none 20 "nav"
      1700000000123456789 "obstacle detected" true RCL_RET_OK = none := by
  decide

/-- C6: when the publisher is created but the map insertion fails, the
publisher is finalized before returning (last event of the trace), the
insertion error itself is returned (`env.publisher_fini_ret` never appears
in the result), and the registry is left unchanged with no entry for `L`. -/
theorem register_set_failure_no_leak (st : RosoutState) (n : rcl_node_t)
    (L : String) (env : PubEnv)
    (hinit : st.is_initialized = true) (hname : n.logger_name = some L)
    (hfree : st.logger_map.lookup L = none)
    (hpub : env.publisher_init_ret = RCL_RET_OK)
    (hset : env.hash_map_set_ret ≠ RCL_RET_OK) :
    rcl_logging_rosout_init_publisher_for_node st (some n) env =
      (env.hash_map_set_ret, st,
       [Event.pubInit n.node_id, Event.mapSet L,
        Event.pubFini env.new_publisher.pub_id]) ∧
    (rcl_logging_rosout_init_publisher_for_node st (some n) env).2.1.logger_map.lookup L
      = none := by
  have hk : rcutils_hash_map_key_exists st.logger_map L = false := by
    unfold rcutils_hash_map_key_exists
    rw [hfree]
    rfl
  constructor
  · simp [rcl_logging_rosout_init_publisher_for_node, hinit, hname, hk, hpub, hset]
  · simp [rcl_logging_rosout_init_publisher_for_node, hinit, hname, hk, hpub, hset, hfree]

/-- Witness for C6: insertion fails with BAD_ALLOC; the freshly created
publisher 9 is finalized and BAD_ALLOC is returned. -/
theorem register_set_failure_no_leak_witness :
    rcl_logging_rosout_init_publisher_for_node sampleInitState (some sampleNode)
        { publisher_init_ret := RCL_RET_OK, new_publisher := ⟨9⟩,
          hash_map_set_ret := RCL_RET_BAD_ALLOC,
          publisher_fini_ret := RCL_RET_ERROR } =
      (RCL_RET_BAD_ALLOC, sampleInitState,
       [Event.pubInit 1, Event.mapSet "nav", Event.pubFini 9]) ∧
    (rcl_logging_rosout_init_publisher_for_node sampleInitState (some sampleNode)
        { publisher_init_ret := RCL_RET_OK, new_publisher := ⟨9⟩,
          hash_map_set_ret := RCL_RET_BAD_ALLOC,
          publisher_fini_ret := RCL_RET_ERROR }).2.1.logger_map.lookup "nav" = none :=
  register_set_failure_no_leak sampleInitState sampleNode "nav" _
    rfl rfl rfl rfl (by decide)

/-- C7: a successful registration for `L` followed by a second registration
attempt for the same logger name returns ALREADY_INIT (AlreadyRegistered),
leaves the state untouched, and the registry holds exactly one entry whose
key is `L`. -/
theorem register_twice_already_registered (st : RosoutState) (n : rcl_node_t)
    (L : String) (env env2 : PubEnv)
    (hinit : st.is_initialized = true) (hname : n.logger_name = some L)
    (hfst : (rcl_logging_rosout_init_publisher_for_node st (some n) env).1 = RCL_RET_OK) :
    (rcl_logging_rosout_init_publisher_for_node
        (rcl_logging_rosout_init_publisher_for_node st (some n) env).2.1
        (some n) env2).1 = RCL_RET_ALREADY_INIT ∧
    (rcl_logging_rosout_init_publisher_for_node
        (rcl_logging_rosout_init_publisher_for_node st (some n) env).2.1
        (some n) env2).2.1 =
      (rcl_logging_rosout_init_publisher_for_node st (some n) env).2.1 ∧
    ((rcl_logging_rosout_init_publisher_for_node st (some n) env).2.1).logger_map.countP
        (fun p => p.1 == L) = 1 := by
  obtain ⟨hlook, hp, hs, hst⟩ := register_ok_inversion st n L env hinit hname hfst
  have hk : rcutils_hash_map_key_exists
      (st.logger_map ++ [(L, ⟨n, env.new_publisher⟩)]) L = true := by
    unfold rcutils_hash_map_key_exists
    rw [lookup_append_single _ _ _ hlook]
    rfl
  refine ⟨?_, ?_, ?_⟩
  · rw [hst]
    simp [rcl_logging_rosout_init_publisher_for_node, hinit, hname, hk]
  · rw [hst]
    simp [rcl_logging_rosout_init_publisher_for_node, hinit, hname, hk]
  · rw [hst]
    simp [List.countP_append, countP_eq_zero_of_lookup_none _ _ hlook]

/-- Witness for C7 on the sample node "nav". -/
theorem register_twice_already_registered_witness :
    (rcl_logging_rosout_init_publisher_for_node
        (rcl_logging_rosout_init_publisher_for_node sampleInitState
          (some sampleNode) sampleEnv).2.1
        (some sampleNode) sampleEnv).1 = RCL_RET_ALREADY_INIT ∧
    (rcl_logging_rosout_init_publisher_for_node
        (rcl_logging_rosout_init_publisher_for_node sampleInitState
          (some sampleNode) sampleEnv).2.1
        (some sampleNode) sampleEnv).2.1 =
      (rcl_logging_rosout_init_publisher_for_node sampleInitState
        (some sampleNode) sampleEnv).2.1 ∧
    ((rcl_logging_rosout_init_publisher_for_node sampleInitState
        (some sampleNode) sampleEnv).2.1).logger_map.countP
        (fun p => p.1 == "nav") = 1 :=
  register_twice_already_registered sampleInitState sampleNode "nav" sampleEnv
    sampleEnv rfl rfl (by decide)

/-- C8: on an initialized registry, unregistering a logger with no entry
returns NOT_INIT (NotRegistered) and leaves everything unchanged; when an
entry exists and its publisher teardown fails, the entry stays in the map
and the teardown error is returned; the entry is removed exactly when the
teardown succeeds, after which no entry for `L` remains. -/
theorem unregister_cases (st : RosoutState) (n : rcl_node_t) (L : String)
    (pub_fini_ret : Nat → rcl_ret_t)
    (hinit : st.is_initialized = true) (hname : n.logger_name = some L) :
    (st.logger_map.lookup L = none →
      rcl_logging_rosout_fini_publisher_for_node st (some n) pub_fini_ret =
        (RCL_RET_NOT_INIT, st, [])) ∧
    (∀ e, st.logger_map.lookup L = some e →
      pub_fini_ret e.publisher.pub_id ≠ RCL_RET_OK →
      rcl_logging_rosout_fini_publisher_for_node st (some n) pub_fini_ret =
        (pub_fini_ret e.publisher.pub_id, st, [Event.pubFini e.publisher.pub_id])) ∧
    (∀ e, st.logger_map.lookup L = some e →
      pub_fini_ret e.publisher.pub_id = RCL_RET_OK →
      rcl_logging_rosout_fini_publisher_for_node st (some n) pub_fini_ret =
        (RCL_RET_OK,
         { st with logger_map := rcutils_hash_map_unset_list st.logger_map L },
         [Event.pubFini e.publisher.pub_id, Event.mapUnset L]) ∧
      (rcutils_hash_map_unset_list st.logger_map L).lookup L = none) := by
  refine ⟨?_, ?_, ?_⟩
  · intro hnone
    have hk : rcutils_hash_map_key_exists st.logger_map L = false := by
      unfold rcutils_hash_map_key_exists
      rw [hnone]
      rfl
    simp [rcl_logging_rosout_fini_publisher_for_node, hinit, hname, hk]
  · intro e he hr
    have hk : rcutils_hash_map_key_exists st.logger_map L = true := by
      unfold rcutils_hash_map_key_exists
      rw [he]
      rfl
    simp [rcl_logging_rosout_fini_publisher_for_node, hinit, hname, hk,
      rcutils_hash_map_get, he, hr]
  · intro e he hr
    have hk : rcutils_hash_map_key_exists st.logger_map L = true := by
      unfold rcutils_hash_map_key_exists
      rw [he]
      rfl
    refine ⟨?_, lookup_unset_eq_none st.logger_map L⟩
    simp [rcl_logging_rosout_fini_publisher_for_node, hinit, hname, hk,
      rcutils_hash_map_get, he, hr]

/-- Witness for C8: on `sampleRegistered`, a failing teardown of publisher 7
returns the error and keeps the entry. -/
theorem unregister_cases_witness :
    rcl_logging_rosout_fini_publisher_for_node sampleRegistered (some sampleNode)
        (fun _ => RCL_RET_ERROR) =
      (RCL_RET_ERROR, sampleRegistered, [Event.pubFini 7]) :=
  (unregister_cases sampleRegistered sampleNode "nav" (fun _ => RCL_RET_ERROR)
      rfl rfl).2.1 ⟨sampleNode, ⟨7⟩⟩ (by decide) (by decide)

/-- C9: while the registry is uninitialized, registration, unregistration
and fini all return OK, leave the state unchanged and perform no external
side effect at all (empty trace — in particular no map operation), and the
output handler publishes nothing and does not fault. -/
theorem uninitialized_all_noop (st : RosoutState) (h : st.is_initialized = false)
    (node : Option rcl_node_t) (env : PubEnv) (pub_fini_ret : Nat → rcl_ret_t)
    (map_fini_ret : rcl_ret_t) (location : Option rcutils_log_location_t)
    (severity timestamp : Int) (name log_str : String) (msg_create_ok : Bool)
    (publish_ret : rcl_ret_t) :
    rcl_logging_rosout_init_publisher_for_node st node env = (RCL_RET_OK, st, []) ∧
    rcl_logging_rosout_fini_publisher_for_node st node pub_fini_ret =
      (RCL_RET_OK, st, []) ∧
    rcl_logging_rosout_fini st pub_fini_ret map_fini_ret = (RCL_RET_OK, st, []) ∧
    rcl_logging_rosout_output_handler st location severity name timestamp log_str
      msg_create_ok publish_ret = some [] := by
  refine ⟨?_, ?_, ?_, ?_⟩ <;>
    simp [rcl_logging_rosout_init_publisher_for_node,
      rcl_logging_rosout_fini_publisher_for_node, rcl_logging_rosout_fini,
      rcl_logging_rosout_output_handler, h]

/-- Witness for C9 on the uninitialized sample state, with a null node and a
record for "nav". -/
theorem uninitialized_all_noop_witness :
    rcl_logging_rosout_init_publisher_for_node sampleUninitState none sampleEnv =
      (RCL_RET_OK, sampleUninitState, []) ∧
    rcl_logging_rosout_fini_publisher_for_node sampleUninitState none
        (fun _ => RCL_RET_ERROR) = (RCL_RET_OK, sampleUninitState, []) ∧
    rcl_logging_rosout_fini sampleUninitState (fun _ => RCL_RET_ERROR) RCL_RET_OK =
      (RCL_RET_OK, sampleUninitState, []) ∧
    rcl_logging_rosout_output_handler sampleUninitState (some sampleLoc) 20 "nav"
      1700000000123456789 "obstacle detected" true RCL_RET_OK = some [] :=
  uninitialized_all_noop sampleUninitState rfl none sampleEnv
    (fun _ => RCL_RET_ERROR) RCL_RET_OK (some sampleLoc) 20 1700000000123456789
    "nav" "obstacle detected" true RCL_RET_OK

/-- C10: when map creation inside registry init fails, the failure is
returned, the initialized flag stays false, the allocator field is not
recorded, and every subsequent per-node operation and fini on the resulting
state is still a no-op success with no map operation. -/
theorem init_map_failure_preserves_disabled (st : RosoutState) (alloc : Nat)
    (map_init_ret : rcl_ret_t)
    (h : st.is_initialized = false) (hm : map_init_ret ≠ RCL_RET_OK) :
    (rcl_logging_rosout_init st (some alloc) map_init_ret).1 = map_init_ret ∧
    (rcl_logging_rosout_init st (some alloc) map_init_ret).2.1.is_initialized = false ∧
    (rcl_logging_rosout_init st (some alloc) map_init_ret).2.1.rosout_allocator =
      st.rosout_allocator ∧
    (∀ node env,
      rcl_logging_rosout_init_publisher_for_node
          (rcl_logging_rosout_init st (some alloc) map_init_ret).2.1 node env =
        (RCL_RET_OK, (rcl_logging_rosout_init st (some alloc) map_init_ret).2.1, [])) ∧
    (∀ node pub_fini_ret,
      rcl_logging_rosout_fini_publisher_for_node
          (rcl_logging_rosout_init st (some alloc) map_init_ret).2.1 node pub_fini_ret =
        (RCL_RET_OK, (rcl_logging_rosout_init st (some alloc) map_init_ret).2.1, [])) ∧
    (∀ pub_fini_ret map_fini_ret,
      rcl_logging_rosout_fini
          (rcl_logging_rosout_init st (some alloc) map_init_ret).2.1
          pub_fini_ret map_fini_ret =
        (RCL_RET_OK, (rcl_logging_rosout_init st (some alloc) map_init_ret).2.1, [])) := by
  have hstate : (rcl_logging_rosout_init st (some alloc) map_init_ret).2.1 =
      { st with logger_map := [] } := by
    simp [rcl_logging_rosout_init, h, hm]
  refine ⟨?_, ?_, ?_, ?_, ?_, ?_⟩ <;>
    simp [rcl_logging_rosout_init, hstate, h, hm,
      rcl_logging_rosout_init_publisher_for_node,
      rcl_logging_rosout_fini_publisher_for_node, rcl_logging_rosout_fini]

/-- Witness for C10: map creation fails with BAD_ALLOC on the uninitialized
sample state. -/
theorem init_map_failure_preserves_disabled_witness :
    (rcl_logging_rosout_init sampleUninitState (some 3) RCL_RET_BAD_ALLOC).1 =
      RCL_RET_BAD_ALLOC ∧
    (rcl_logging_rosout_init sampleUninitState (some 3) RCL_RET_BAD_ALLOC).2.1.is_initialized
      = false ∧
    (rcl_logging_rosout_init sampleUninitState (some 3) RCL_RET_BAD_ALLOC).2.1.rosout_allocator
      = sampleUninitState.rosout_allocator ∧
    (∀ node env,
      rcl_logging_rosout_init_publisher_for_node
          (rcl_logging_rosout_init sampleUninitState (some 3) RCL_RET_BAD_ALLOC).2.1
          node env =
        (RCL_RET_OK,
         (rcl_logging_rosout_init sampleUninitState (some 3) RCL_RET_BAD_ALLOC).2.1, [])) ∧
    (∀ node pub_fini_ret,
      rcl_logging_rosout_fini_publisher_for_node
          (rcl_logging_rosout_init sampleUninitState (some 3) RCL_RET_BAD_ALLOC).2.1
          node pub_fini_ret =
        (RCL_RET_OK,
         (rcl_logging_rosout_init sampleUninitState (some 3) RCL_RET_BAD_ALLOC).2.1, [])) ∧
    (∀ pub_fini_ret map_fini_ret,
      rcl_logging_rosout_fini
          (rcl_logging_rosout_init sampleUninitState (some 3) RCL_RET_BAD_ALLOC).2.1
          pub_fini_ret map_fini_ret =
        (RCL_RET_OK,
         (rcl_logging_rosout_init sampleUninitState (some 3) RCL_RET_BAD_ALLOC).2.1, [])) :=
  init_map_failure_preserves_disabled sampleUninitState 3 RCL_RET_BAD_ALLOC rfl
    (by decide)

/-- C2 counterexample: with both the registry and the external sink enabled
at the last configure and the registry teardown failing (its publisher's
fini reports an error), `rcl_logging_fini` never attempts the external-sink
teardown — `extShutdown` does not occur in the trace — refuting the claim
that the external teardown is attempted even when the registry teardown
fails. -/
theorem fini_skips_external_after_registry_failure :
    sampleBothEnabled.logging.rosout_enabled = true ∧
    sampleBothEnabled.logging.ext_lib_enabled = true ∧
    (rcl_logging_fini sampleBothEnabled (fun _ => RCL_RET_ERROR) RCL_RET_OK
      RCL_RET_OK).1 = RCL_RET_ERROR ∧
    Event.extShutdown ∉
      (rcl_logging_fini sampleBothEnabled (fun _ => RCL_RET_ERROR) RCL_RET_OK
        RCL_RET_OK).2.2 := by
  decide

/-- C2 (amended): with both sinks enabled at the last configure, dispatcher
shutdown attempts the external-sink teardown only when the registry teardown
succeeded; when the registry teardown fails its error is returned and the
external teardown is skipped, and when it succeeds the external teardown's
result is returned. -/
theorem fini_teardown_policy (g : GlobalState) (pub_fini_ret : Nat → rcl_ret_t)
    (map_fini_ret ext_shutdown_ret : rcl_ret_t)
    (hro : g.logging.rosout_enabled = true)
    (hext : g.logging.ext_lib_enabled = true) :
    ((rcl_logging_rosout_fini g.rosout pub_fini_ret map_fini_ret).1 ≠ RCL_RET_OK →
      (rcl_logging_fini g pub_fini_ret map_fini_ret ext_shutdown_ret).1 =
        (rcl_logging_rosout_fini g.rosout pub_fini_ret map_fini_ret).1 ∧
      Event.extShutdown ∉
        (rcl_logging_fini g pub_fini_ret map_fini_ret ext_shutdown_ret).2.2) ∧
    ((rcl_logging_rosout_fini g.rosout pub_fini_ret map_fini_ret).1 = RCL_RET_OK →
      (rcl_logging_fini g pub_fini_ret map_fini_ret ext_shutdown_ret).1 =
        ext_shutdown_ret ∧
      Event.extShutdown ∈
        (rcl_logging_fini g pub_fini_ret map_fini_ret ext_shutdown_ret).2.2) := by
  have hnm := extShutdown_not_mem_rosout_fini g.rosout pub_fini_ret map_fini_ret
  rcases hfini : rcl_logging_rosout_fini g.rosout pub_fini_ret map_fini_ret
    with ⟨r, st', evs⟩
  rw [hfini] at hnm
  constructor
  · intro hr
    simp only at hr
    constructor
    · simp [rcl_logging_fini, hro, hext, hfini, hr]
    · simp [rcl_logging_fini, hro, hext, hfini, hr]
      exact fun hc => absurd hc hnm
  · intro hr
    simp only at hr
    constructor
    · simp [rcl_logging_fini, hro, hext, hfini, hr]
    · simp [rcl_logging_fini, hro, hext, hfini, hr]

/-- Witness for C2 (amended): registry teardown succeeds, external shutdown
fails with ERROR which is then the returned status, and the external
teardown was attempted. -/
theorem fini_teardown_policy_witness :
    (rcl_logging_fini sampleBothEnabled (fun _ => RCL_RET_OK) RCL_RET_OK
      RCL_RET_ERROR).1 = RCL_RET_ERROR ∧
    Event.extShutdown ∈
      (rcl_logging_fini sampleBothEnabled (fun _ => RCL_RET_OK) RCL_RET_OK
        RCL_RET_ERROR).2.2 :=
  (fini_teardown_policy sampleBothEnabled (fun _ => RCL_RET_OK) RCL_RET_OK
    RCL_RET_ERROR rfl rfl).2 (by decide)

/-- C4 counterexample: from a fresh state with all three sinks enabled, the
registry initialization fails with BAD_ALLOC (its sink is omitted while
console stays active and the external sink is appended), yet configure
returns OK because the later successful external initialization overwrote
the status — refuting the claim that the failure status is the value
configure returns. -/
theorem configure_masks_registry_failure :
    (rcl_logging_rosout_init sampleFreshGlobal.rosout (some 3) RCL_RET_BAD_ALLOC).1
      = RCL_RET_BAD_ALLOC ∧
    rcl_logging_multiple_output_handler
        (rcl_logging_configure sampleFreshGlobal sampleArgsAllOn (some 3)
          RCL_RET_BAD_ALLOC RCL_RET_OK).2.1.logging =
      [OutputHandlerKind.console, OutputHandlerKind.extLib] ∧
    (rcl_logging_configure sampleFreshGlobal sampleArgsAllOn (some 3)
      RCL_RET_BAD_ALLOC RCL_RET_OK).1 = RCL_RET_OK := by
  decide

/-- C4 (amended): every configure call appends the enabled sinks in the
fixed order console, registry, external; a registry or external subsystem
that fails to initialize has its sink omitted while the sinks already
appended remain active; and the returned status is the external subsystem's
initialization result when the external sink is enabled (so a later
successful external initialization masks an earlier registry failure),
otherwise the registry initialization's result when the registry sink is
enabled, otherwise OK. -/
theorem configure_order_omission_status (g : GlobalState) (args : rcl_arguments_t)
    (allocator : Option Nat) (map_init_ret ext_init_ret : rcl_ret_t) :
    rcl_logging_multiple_output_handler
        (rcl_logging_configure g args allocator map_init_ret ext_init_ret).2.1.logging =
      expectedHandlers args (rcl_logging_rosout_init g.rosout allocator map_init_ret).1
        ext_init_ret ∧
    (rcl_logging_configure g args allocator map_init_ret ext_init_ret).1 =
      (if args.log_ext_lib_disabled = false then ext_init_ret
       else if args.log_rosout_disabled = false then
         (rcl_logging_rosout_init g.rosout allocator map_init_ret).1
       else RCL_RET_OK) :=
  ⟨(configure_characterization g args allocator map_init_ret ext_init_ret).1,
   (configure_characterization g args allocator map_init_ret ext_init_ret).2.2⟩

/-- C5: after two consecutive configure calls with no intervening shutdown,
the dispatch loop invokes exactly the canonical handler list of the second
call's configuration (each enabled-and-successfully-initialized sink once,
in the fixed order), and the handler count equals that list's length — the
list was reset to zero length first, so it is never a concatenation of both
configurations. -/
theorem reconfigure_replaces_handlers (g : GlobalState)
    (args1 args2 : rcl_arguments_t) (al1 al2 : Option Nat)
    (m1 e1 m2 e2 : rcl_ret_t) :
    rcl_logging_multiple_output_handler
        (rcl_logging_configure
          (rcl_logging_configure g args1 al1 m1 e1).2.1
          args2 al2 m2 e2).2.1.logging =
      expectedHandlers args2
        (rcl_logging_rosout_init
          (rcl_logging_configure g args1 al1 m1 e1).2.1.rosout al2 m2).1 e2 ∧
    (rcl_logging_configure
        (rcl_logging_configure g args1 al1 m1 e1).2.1
        args2 al2 m2 e2).2.1.logging.num_out_handlers =
      (expectedHandlers args2
        (rcl_logging_rosout_init
          (rcl_logging_configure g args1 al1 m1 e1).2.1.rosout al2 m2).1 e2).length :=
  ⟨(configure_characterization (rcl_logging_configure g args1 al1 m1 e1).2.1
      args2 al2 m2 e2).1,
   (configure_characterization (rcl_logging_configure g args1 al1 m1 e1).2.1
      args2 al2 m2 e2).2.1⟩

end RclLogging
